import Mathlib

/-!
Shallow embedding of the glwiz task-orchestration and command-execution
layer (Rust sources under `src/`), together with theorems settling the
frozen claims about it.  Effectful Rust functions are embedded as pure
Lean functions over explicit "world" inputs (environment lookups, spawn
outcomes, filesystem contents, stdin lines); process exit and printing
are reflected in explicit result types.
-/

/-- Embeds `TaskResult` from `src/functionality/task.rs`: a status code
(`i8`, 0 = success) and a descriptive message. -/
structure TaskResult where
  status : Int
  message : String
deriving DecidableEq, Repr

/-- Embeds `validate_task_statuses` from `src/functionality/task.rs`.
The Rust function filters the tasks with nonzero status; if none, it
returns `true`, otherwise it prints one stderr line per failing task and
returns `false`.  The second component records the failing tasks printed
to stderr, in the order the loop visits them. -/
def validate_task_statuses (tasks : List TaskResult) : Bool × List TaskResult :=
  let errors := tasks.filter (fun t => t.status ≠ 0)
  if errors.isEmpty then (true, []) else (false, errors)

/-- Embeds the result of `validate_root_priviliges` from
`src/functionality/prog_fun.rs`: either the process terminated (after
printing guidance to re-run as a normal user), or the function returned
a boolean. -/
inductive PrivResult where
  | exited (code : Int)
  | returned (is_root : Bool)
deriving DecidableEq, Repr

/-- Embeds `validate_root_priviliges` from `src/functionality/prog_fun.rs`.
The effective UID (`libc::getuid()`) is passed as an explicit input.
`PrivResult.exited 1` models printing the root-discouragement guidance
followed by `exit(1)`. -/
def validate_root_priviliges (uid : Nat) (allow_root : Bool) : PrivResult :=
  if uid = 0 then
    if ¬ allow_root then PrivResult.exited 1
    else PrivResult.returned true
  else PrivResult.returned false

/-- Embeds the captured output of a child process that was successfully
spawned and waited on (`std::process::Output`): whether its exit status
was successful, and the captured streams. -/
structure CmdOutput where
  success : Bool
  stdout : String
  stderr : String
deriving DecidableEq, Repr

/-- Embeds the error taxonomy of the command runners in
`src/functionality/commands.rs` (the Rust code returns formatted
`String`s; the constructors record which format string was used and its
payloads). -/
inductive CmdError where
  | spawnFailed
  | stdinWriteFailed
  | waitFailed
  | nonZeroExit (stdout stderr : String)
deriving DecidableEq, Repr

/-- Embeds `run_sudo_command` from `src/functionality/commands.rs`.  The
world input is the result of `Command::new("sudo").arg(command).args(args)
.output()`: `none` when the process could not be executed, `some o`
otherwise. -/
def run_sudo_command (world : Option CmdOutput) : Except CmdError Unit :=
  match world with
  | none => Except.error CmdError.spawnFailed
  | some o =>
    if o.success then Except.ok ()
    else Except.error (CmdError.nonZeroExit o.stdout o.stderr)

/-- Embeds `run_user_command` from `src/functionality/commands.rs`; the
body is identical to `run_sudo_command` except that the program is
spawned directly rather than through `sudo`. -/
def run_user_command (world : Option CmdOutput) : Except CmdError Unit :=
  match world with
  | none => Except.error CmdError.spawnFailed
  | some o =>
    if o.success then Except.ok ()
    else Except.error (CmdError.nonZeroExit o.stdout o.stderr)

/-- World inputs for `run_sudo_command_with_stdin`: whether `spawn()`
succeeded, whether `write_all` on the child stdin succeeded, and the
result of `wait_with_output()` (`none` when waiting failed). -/
structure StdinWorld where
  spawnOk : Bool
  writeOk : Bool
  waitResult : Option CmdOutput
deriving DecidableEq, Repr

/-- Embeds `run_sudo_command_with_stdin` from
`src/functionality/commands.rs`: spawn with piped stdin, write the
content, then wait; each stage failing short-circuits with its error. -/
def run_sudo_command_with_stdin (w : StdinWorld) : Except CmdError Unit :=
  if ¬ w.spawnOk then Except.error CmdError.spawnFailed
  else if ¬ w.writeOk then Except.error CmdError.stdinWriteFailed
  else
    match w.waitResult with
    | none => Except.error CmdError.waitFailed
    | some o =>
      if o.success then Except.ok ()
      else Except.error (CmdError.nonZeroExit o.stdout o.stderr)

/-- Decides whether `pat` occurs as a prefix of the character list `s`
(models Rust slice equality used by substring search). -/
def charsStartWith : List Char → List Char → Bool
  | [], _ => true
  | _ :: _, [] => false
  | a :: as, b :: bs => a == b && charsStartWith as bs

/-- Decides whether `pat` occurs as a contiguous sublist of `s`. -/
def charsContain (pat : List Char) : List Char → Bool
  | [] => charsStartWith pat []
  | c :: rest => charsStartWith pat (c :: rest) || charsContain pat rest

/-- Models Rust `str::contains(pat)` for literal patterns: substring
containment. -/
def strContains (s pat : String) : Bool :=
  charsContain pat.data s.data

/-- Embeds `software_setup` from `src/functionality/software.rs`.  The
distro chooses the package manager (unsupported distros fail with 1
before any spawn); the world input is the result of running the chosen
command (`none` = spawn failure). -/
def software_setup (_packages : List String) (distro : String)
    (world : Option CmdOutput) : Int :=
  if distro = "arch" ∨ distro = "debian" ∨ distro = "fedora" then
    match world with
    | some o => if o.success then 0 else 1
    | none => 1
  else 1

/-- Embeds `software_setup` from `src/setup_fun.rs` (the legacy
revision used by `src/main.rs`).  A spawn failure panics via `expect`,
so the world input here is the `Output` itself.  On a nonzero exit the
function inspects stderr: when it contains neither `"error:"` nor
`"failed to download"` it prints a warning and returns 0, otherwise 1. -/
def software_setup_legacy (_packages : List String) (o : CmdOutput) : Int :=
  if o.success then 0
  else
    if strContains o.stderr "error:" = false ∧
        strContains o.stderr "failed to download" = false then 0
    else 1

/-- Embeds the error values produced during identity resolution in
`gnu_linux_default_setup` (`src/lib.rs`).  The Rust code returns
formatted `String`s; each constructor records which message was built
and its payload: `missingVar v` is the `get_env_var` message
`"error: failed to get v: ..."` (the only one naming the variable),
`emptyUserName` is `"Username cannot be empty"` from
`UserCfg::set_name`, `emptyHomeDir` is `"Home directory cannot be
empty"` and `homeMissing p` is `"Home directory p does not exist"` from
`UserCfg::set_home`. -/
inductive ResolveError where
  | missingVar (name : String)
  | emptyUserName
  | emptyHomeDir
  | homeMissing (path : String)
deriving DecidableEq, Repr

/-- Embeds `get_env_var` from `src/functionality/env.rs`.  The process
environment is an explicit map; `env::var` errors only when the
variable is absent (the invalid-unicode case is not representable over
`String`), and the error message names the variable. -/
def get_env_var (env : String → Option String) (v : String) :
    Except ResolveError String :=
  match env v with
  | some s => Except.ok s
  | none => Except.error (ResolveError.missingVar v)

/-- Embeds `UserCfg` from `src/functionality/user_cfg.rs`. -/
structure UserCfg where
  name : String
  home_dir : String
deriving DecidableEq, Repr

/-- Embeds `UserCfg::new`. -/
def UserCfg.new : UserCfg :=
  { name := "", home_dir := "" }

/-- Embeds `UserCfg::set_name`: rejects the empty string, otherwise
stores the name (Rust `str::is_empty` is equality with `""`). -/
def UserCfg.setName (c : UserCfg) (n : String) : Except ResolveError UserCfg :=
  if n = "" then Except.error ResolveError.emptyUserName
  else Except.ok { c with name := n }

/-- Embeds `UserCfg::set_home`: rejects the empty string, then rejects
paths that do not exist on disk (existence is an explicit world input),
otherwise stores the path. -/
def UserCfg.setHome (dirExists : String → Bool) (c : UserCfg) (h : String) :
    Except ResolveError UserCfg :=
  if h = "" then Except.error ResolveError.emptyHomeDir
  else if ¬ dirExists h then Except.error (ResolveError.homeMissing h)
  else Except.ok { c with home_dir := h }

/-- Embeds the identity-resolution prefix of `gnu_linux_default_setup`
(`src/lib.rs` lines 112–124): fetch `USER`, fetch `HOME` (each early
return propagates the `get_env_var` error), then `set_name` and
`set_home` (each `?` propagates the setter error). -/
def resolveUserCfg (env : String → Option String) (dirExists : String → Bool) :
    Except ResolveError UserCfg := do
  let user_name ← get_env_var env "USER"
  let home_dir ← get_env_var env "HOME"
  let cfg ← UserCfg.new.setName user_name
  let cfg ← cfg.setHome dirExists home_dir
  pure cfg

/-- Embeds the outcome of `validate_task_status` from `src/setup_fun.rs`:
either the function returned normally (status 0, nothing printed), or it
printed the failure message (`print_setup_status_failed`) and terminated
the process with the status as exit code. -/
inductive ValidateOutcome where
  | returned
  | failedExit (code : Int)
deriving DecidableEq, Repr

/-- Embeds `validate_task_status` from `src/setup_fun.rs`:
`if status != 0 { print_setup_status_failed(); exit(status as i32); }`. -/
def validate_task_status (status : Int) : ValidateOutcome :=
  if status ≠ 0 then ValidateOutcome.failedExit status else ValidateOutcome.returned

/-- Models the fail-fast sequencing of `src/main.rs`: each step runs and
its status is passed to `validate_task_status`; the next step runs only
if that call returned.  Returns the labels of the steps that executed
(in order) and the exit code when the process terminated early. -/
def runFailFast : List (String × Int) → List String × Option Int
  | [] => ([], none)
  | (label, status) :: rest =>
    match validate_task_status status with
    | ValidateOutcome.returned =>
      let r := runFailFast rest
      (label :: r.1, r.2)
    | ValidateOutcome.failedExit c => ([label], some c)

/-- Splits a character list at every occurrence of `sep` (the pieces,
in order, with separators removed). -/
def splitOnChar (sep : Char) : List Char → List (List Char)
  | [] => [[]]
  | c :: rest =>
    if c = sep then [] :: splitOnChar sep rest
    else
      match splitOnChar sep rest with
      | [] => [[c]]
      | h :: t => (c :: h) :: t

/-- Models Rust `Path::file_name` on string paths: the last `/`-separated
component after dropping empty and `"."` components, `none` when there
is no component or the last one is `".."`. -/
def path_file_name (p : String) : Option String :=
  let comps := ((splitOnChar '/' p.data).map String.mk).filter
    (fun c => c ≠ "" ∧ c ≠ ".")
  match comps.getLast? with
  | some last => if last = ".." then none else some last
  | none => none

/-- Models `Path::new(dir).join(file)` for a directory path with no
trailing separator. -/
def path_join (dir file : String) : String :=
  dir ++ "/" ++ file

/-- Recognizes the ASCII whitespace removed by Rust `str::trim` (the
model restricts Unicode `White_Space` to its ASCII subset). -/
def isWsChar (c : Char) : Bool :=
  c = ' ' || c = '\t' || c = '\n' || c = '\r'

/-- Drops leading and trailing whitespace from a character list. -/
def trimChars (l : List Char) : List Char :=
  ((l.dropWhile isWsChar).reverse.dropWhile isWsChar).reverse

/-- Models `read_input().trim().to_lowercase()` applied to the line read
at an overwrite prompt (`src/functionality/configs.rs` and
`src/functionality/zram.rs`). -/
def normalizeAnswer (s : String) : String :=
  String.mk ((trimChars s.data).map Char.toLower)

/-- Embeds `user_config_setup` from `src/functionality/configs.rs` over
an explicit filesystem (path → file contents).  The file name is taken
from the source path (status 1 when there is none); when the
destination exists, the overwrite prompt is consulted and any answer
whose trimmed lowercase form is not `"y"` skips with status 0 and no
mutation.  Otherwise `std::fs::copy` runs; its `Err` branch fires both
when the source cannot be read (the source is absent from `fs`) and
when the destination cannot be written, so destination-side success is
the explicit world input `copyOk`: the copy succeeds and writes the
source contents at the destination iff the source is readable and
`copyOk` is true, and otherwise the call returns status 1.  On a failed
copy the model leaves the filesystem unchanged (a real partial write is
not represented; no theorem relies on the failure-branch contents).
Returns the status and the filesystem after the call. -/
def user_config_setup (config_path home_dir _cfg_name input : String)
    (copyOk : Bool) (fs : String → Option String) :
    Int × (String → Option String) :=
  match path_file_name config_path with
  | none => (1, fs)
  | some filename =>
    let dest_path := path_join home_dir filename
    if (fs dest_path).isSome ∧ normalizeAnswer input ≠ "y" then (0, fs)
    else
      match fs config_path with
      | some content =>
        if copyOk then (0, fun p => if p = dest_path then some content else fs p)
        else (1, fs)
      | none => (1, fs)

/-- Embeds `zram_swap_setup` from `src/functionality/zram.rs` over an
explicit filesystem: status 1 when the source configuration is missing;
when the destination exists, a non-`"y"` trimmed lowercase answer skips
with status 0 and no mutation.  Otherwise the elevated
`run_sudo_command("cp", ..)` runs, with its success the explicit world
input `cpOk`: on success the source contents are written at the
destination, on failure the call returns status 1 (the model leaves
the filesystem unchanged there; the external `cp` could in reality
write partially, and no theorem relies on the failure-branch
contents). -/
def zram_swap_setup (input : String) (cpOk : Bool)
    (fs : String → Option String) : Int × (String → Option String) :=
  let src := "../configs/zram-generator.conf"
  let dest := "/etc/systemd/zram-generator.conf"
  if (fs src).isNone then (1, fs)
  else if (fs dest).isSome ∧ normalizeAnswer input ≠ "y" then (0, fs)
  else
    match fs src with
    | some content =>
      if cpOk then (0, fun p => if p = dest then some content else fs p)
      else (1, fs)
    | none => (1, fs)

/-- Embeds `copy_item_as_root` from `src/functionality/configs.rs`: one
elevated `cp -r src dest` through `run_sudo_command`, whose success per
(source, destination) pair is the world input `cpOk`; returns 0 on
success and 1 (after printing which item failed) otherwise. -/
def copy_item_as_root (cpOk : String → String → Bool) (src dest : String) : Int :=
  if cpOk src dest then 0 else 1

/-- Trace of one `setup_root_config` run: the returned status, the
descriptions of the items whose copy was attempted (in order), the
destinations whose copy succeeded (and are never rolled back), and the
description reported in the failure message, if any. -/
structure RootConfigTrace where
  status : Int
  attempted : List String
  written : List String
  failed : Option String
deriving DecidableEq, Repr

/-- Embeds the loop of `setup_root_config` over its item list
(source, destination, description): each item is copied in turn and the
loop returns 1 as soon as `copy_item_as_root` reports a failure, leaving
later items unattempted and earlier copies in place. -/
def runRootItems (cpOk : String → String → Bool) :
    List (String × String × String) → RootConfigTrace
  | [] => ⟨0, [], [], none⟩
  | (src, dest, desc) :: rest =>
    if copy_item_as_root cpOk src dest = 0 then
      let r := runRootItems cpOk rest
      ⟨r.status, desc :: r.attempted, dest :: r.written, r.failed⟩
    else ⟨1, [desc], [], some desc⟩

/-- Embeds the item list of `setup_root_config` from
`src/functionality/configs.rs`. -/
def rootItems (home_dir : String) : List (String × String × String) :=
  [(home_dir ++ "/.oh-my-zsh", "/root/.oh-my-zsh", "Root Oh My Zsh"),
   (home_dir ++ "/.zshrc", "/root/.zshrc", "Root Zsh config"),
   (home_dir ++ "/.vimrc", "/root/.vimrc", "Root Vim config")]

/-- Embeds `setup_root_config` from `src/functionality/configs.rs`. -/
def setup_root_config (home_dir : String) (cpOk : String → String → Bool) :
    RootConfigTrace :=
  runRootItems cpOk (rootItems home_dir)

/-- World inputs of `gnu_linux_default_setup` (`src/lib.rs`): the
effective UID, the process environment, directory existence, and the
status each configuration sub-task returns when it runs. -/
structure SetupWorld where
  uid : Nat
  env : String → Option String
  dirExists : String → Bool
  ipt_file_status : Int
  ipt_rules_status : Int
  sw_status : Int
  shell_user_status : Int
  shell_root_status : Int
  omz_status : Int
  autosug_status : Int
  synhl_status : Int
  zshrc_status : Int
  vimrc_status : Int
  root_cfg_status : Int
  zram_status : Int

/-- Embeds the result of `gnu_linux_default_setup`: the process exited
inside `validate_root_priviliges`, or the function returned `Err` early
from identity resolution, or it ran all tasks and returned
`Ok(())`/`Err(..)` according to `validate_task_statuses` (recorded with
the full task list). -/
inductive SetupOutcome where
  | exited (code : Int)
  | errored (e : ResolveError)
  | completed (ok : Bool) (tasks : List TaskResult)
deriving DecidableEq, Repr

/-- Embeds `gnu_linux_default_setup` from `src/lib.rs`: print license
(task 0), validate root privileges (task status
`if is_root || !allow_root { 0 } else { 1 }`), resolve the user
configuration (early `Err` on failure), then run the configuration
sub-tasks collecting one `TaskResult` each, and finally validate all
collected statuses. -/
def gnu_linux_default_setup (allow_root : Bool) (w : SetupWorld) : SetupOutcome :=
  match validate_root_priviliges w.uid allow_root with
  | PrivResult.exited c => SetupOutcome.exited c
  | PrivResult.returned is_root =>
    match resolveUserCfg w.env w.dirExists with
    | Except.error e => SetupOutcome.errored e
    | Except.ok cfg =>
      let tasks : List TaskResult := [
        ⟨0, "License info displayed"⟩,
        ⟨if is_root || !allow_root then 0 else 1, "Root privilege validation"⟩,
        ⟨0, "User configuration set"⟩,
        ⟨w.ipt_file_status, "iptables file setup"⟩,
        ⟨w.ipt_rules_status, "iptables rules setup"⟩,
        ⟨w.sw_status, "Software installation"⟩,
        ⟨w.shell_user_status, "Shell change for " ++ cfg.name⟩,
        ⟨w.shell_root_status, "Shell change for root"⟩,
        ⟨w.omz_status, "Oh My Zsh installation"⟩,
        ⟨w.autosug_status, "Zsh autosuggestions installation"⟩,
        ⟨w.synhl_status, "Zsh syntax highlighting installation"⟩,
        ⟨w.zshrc_status, "Zsh user configuration"⟩,
        ⟨w.vimrc_status, "Vim user configuration"⟩,
        ⟨w.root_cfg_status, "Root configuration"⟩,
        ⟨w.zram_status, "ZRAM swap setup"⟩]
      SetupOutcome.completed (validate_task_statuses tasks).1 tasks

/-- Sample world for witnessing `gnu_linux_default_setup` theorems: a
non-root user `alice` with an existing home directory and every
configuration sub-task succeeding. -/
def sampleSetupWorld : SetupWorld where
  uid := 1000
  env := fun v =>
    if v = "USER" then some "alice"
    else if v = "HOME" then some "/home/alice" else none
  dirExists := fun _ => true
  ipt_file_status := 0
  ipt_rules_status := 0
  sw_status := 0
  shell_user_status := 0
  shell_root_status := 0
  omz_status := 0
  autosug_status := 0
  synhl_status := 0
  zshrc_status := 0
  vimrc_status := 0
  root_cfg_status := 0
  zram_status := 0

/-- Task list that `gnu_linux_default_setup true sampleSetupWorld`
collects. -/
def sampleTasks : List TaskResult :=
  [⟨0, "License info displayed"⟩,
   ⟨1, "Root privilege validation"⟩,
   ⟨0, "User configuration set"⟩,
   ⟨0, "iptables file setup"⟩,
   ⟨0, "iptables rules setup"⟩,
   ⟨0, "Software installation"⟩,
   ⟨0, "Shell change for alice"⟩,
   ⟨0, "Shell change for root"⟩,
   ⟨0, "Oh My Zsh installation"⟩,
   ⟨0, "Zsh autosuggestions installation"⟩,
   ⟨0, "Zsh syntax highlighting installation"⟩,
   ⟨0, "Zsh user configuration"⟩,
   ⟨0, "Vim user configuration"⟩,
   ⟨0, "Root configuration"⟩,
   ⟨0, "ZRAM swap setup"⟩]

/-- C1: under the collect-all policy, `validate_task_statuses` returns
`true` iff every task has status 0; the reported failing list is a
sublist of the input (original order) containing exactly the tasks whose
status is nonzero, hence no task with status 0. -/
theorem validate_task_statuses_collect_all (tasks : List TaskResult) :
    ((validate_task_statuses tasks).1 = true ↔ ∀ t ∈ tasks, t.status = 0) ∧
    ((validate_task_statuses tasks).2.Sublist tasks) ∧
    (∀ t, t ∈ (validate_task_statuses tasks).2 ↔ t ∈ tasks ∧ t.status ≠ 0) := by
  unfold validate_task_statuses
  by_cases h : (tasks.filter (fun t => t.status ≠ 0)).isEmpty = true
  · simp only [h, if_true]
    rw [List.isEmpty_iff, List.filter_eq_nil_iff] at h
    refine ⟨by simpa using fun t ht => by simpa using h t ht, List.nil_sublist tasks, ?_⟩
    intro t
    simp only [List.not_mem_nil, false_iff]
    rintro ⟨ht, hs⟩
    exact absurd (by simpa using h t ht) (by simpa using hs)
  · have hne : tasks.filter (fun t => t.status ≠ 0) ≠ [] := by
      simpa [List.isEmpty_iff] using h
    simp only [if_neg h]
    refine ⟨?_, List.filter_sublist tasks, ?_⟩
    · simp only [Bool.false_eq_true, false_iff, not_forall]
      rcases List.exists_mem_of_ne_nil _ hne with ⟨t, ht⟩
      rcases List.mem_filter.mp ht with ⟨htm, hts⟩
      exact ⟨t, htm, by simpa using hts⟩
    · intro t
      simp [List.mem_filter]

/-- Witness for C1 on a concrete two-task list with one failing task. -/
theorem validate_task_statuses_collect_all_witness :
    (validate_task_statuses
        [TaskResult.mk 0 "Task 1", TaskResult.mk 1 "Task 2"]).2.Sublist
      [TaskResult.mk 0 "Task 1", TaskResult.mk 1 "Task 2"] :=
  (validate_task_statuses_collect_all
    [TaskResult.mk 0 "Task 1", TaskResult.mk 1 "Task 2"]).2.1

/-- C9: the privilege gate exits with status 1 when run as root without
the allow-root flag, proceeds returning `false` whenever the effective
UID is nonzero, and returns `true` exactly when the UID is 0 and the
flag is set. -/
theorem validate_root_priviliges_policy (uid : Nat) (allow_root : Bool) :
    (validate_root_priviliges 0 false = PrivResult.exited 1) ∧
    (uid ≠ 0 → validate_root_priviliges uid allow_root = PrivResult.returned false) ∧
    (validate_root_priviliges uid allow_root = PrivResult.returned true ↔
      uid = 0 ∧ allow_root = true) := by
  refine ⟨by decide, ?_, ?_⟩
  · intro h
    simp [validate_root_priviliges, h]
  · unfold validate_root_priviliges
    by_cases hu : uid = 0 <;> by_cases hr : allow_root <;> simp [hu, hr]

/-- Witness for C9 at UID 1000 with the allow-root flag unset. -/
theorem validate_root_priviliges_policy_witness :
    validate_root_priviliges 1000 false = PrivResult.returned false :=
  (validate_root_priviliges_policy 1000 false).2.1 (by decide)

/-- C2 counterexample: the legacy `software_setup` in `src/setup_fun.rs`
maps a child that exits nonzero with stderr `"warning: foo"` to step
status 0, so the zero/nonzero classification is not exactly the
predicate (exit code ≠ 0) and stderr content does affect it. -/
theorem software_setup_stderr_counterexample :
    (CmdOutput.mk false "" "warning: foo").success = false ∧
    software_setup_legacy ["firefox"] (CmdOutput.mk false "" "warning: foo") = 0 := by
  constructor
  · rfl
  · decide

/-- C2 amended: for the distro-aware `software_setup` in
`src/functionality/software.rs` (supported distro, spawn succeeded) the
step status is 0 iff the child exited 0, independent of the captured
streams; the legacy `software_setup` in `src/setup_fun.rs` maps exit 0
to status 0, but maps a nonzero exit to status 0 exactly when stderr
contains neither `"error:"` nor `"failed to download"`, so its
classification does depend on stderr content. -/
theorem software_setup_status_mapping (packages : List String) (o : CmdOutput) :
    (software_setup packages "arch" (some o) = 0 ↔ o.success = true) ∧
    (software_setup packages "debian" (some o) = 0 ↔ o.success = true) ∧
    (software_setup packages "fedora" (some o) = 0 ↔ o.success = true) ∧
    (o.success = true → software_setup_legacy packages o = 0) ∧
    (o.success = false →
      (software_setup_legacy packages o = 0 ↔
        strContains o.stderr "error:" = false ∧
        strContains o.stderr "failed to download" = false)) := by
  refine ⟨?_, ?_, ?_, ?_, ?_⟩
  · cases h : o.success <;> simp [software_setup, h]
  · cases h : o.success <;> simp [software_setup, h]
  · cases h : o.success <;> simp [software_setup, h]
  · intro h
    simp [software_setup_legacy, h]
  · intro h
    by_cases he : strContains o.stderr "error:" = false ∧
        strContains o.stderr "failed to download" = false <;>
      simp [software_setup_legacy, h, he]

/-- Witness for C2 amended: with stderr `"error: x"` on a nonzero exit,
the legacy classification yields a nonzero status iff the marker is
present (it is). -/
theorem software_setup_status_mapping_witness :
    software_setup_legacy [] (CmdOutput.mk false "" "error: x") = 0 ↔
      strContains "error: x" "error:" = false ∧
      strContains "error: x" "failed to download" = false :=
  (software_setup_status_mapping [] (CmdOutput.mk false "" "error: x")).2.2.2.2 rfl

/-- C5 counterexample: a world where the child is spawned, the stdin
write fails, and the child nevertheless exits successfully makes
`run_sudo_command_with_stdin` return the stdin-write error, not `Ok`,
refuting "each primitive returns Ok iff the child process was spawned
and exited with a successful status". -/
theorem run_with_stdin_counterexample :
    (StdinWorld.mk true false (some (CmdOutput.mk true "" ""))).spawnOk = true ∧
    (StdinWorld.mk true false (some (CmdOutput.mk true "" ""))).waitResult =
      some (CmdOutput.mk true "" "") ∧
    (CmdOutput.mk true "" "").success = true ∧
    run_sudo_command_with_stdin (StdinWorld.mk true false (some (CmdOutput.mk true "" ""))) =
      Except.error CmdError.stdinWriteFailed := by
  exact ⟨rfl, rfl, rfl, rfl⟩

/-- C5 amended: each runner returns the spawn-failure error (never `Ok`)
when the program cannot be spawned; `run_sudo_command` and
`run_user_command` return `Ok` iff the child ran and exited
successfully, while `run_sudo_command_with_stdin` returns `Ok` iff the
spawn, the stdin write, and the wait all succeeded and the child exited
successfully (a failed stdin write yields `Err` even if the child exits
0). -/
theorem command_runners_ok_iff (o : Option CmdOutput) (w : StdinWorld) :
    (run_sudo_command none = Except.error CmdError.spawnFailed) ∧
    (run_user_command none = Except.error CmdError.spawnFailed) ∧
    (w.spawnOk = false →
      run_sudo_command_with_stdin w = Except.error CmdError.spawnFailed) ∧
    (run_sudo_command o = Except.ok () ↔ ∃ r, o = some r ∧ r.success = true) ∧
    (run_user_command o = Except.ok () ↔ ∃ r, o = some r ∧ r.success = true) ∧
    (run_sudo_command_with_stdin w = Except.ok () ↔
      w.spawnOk = true ∧ w.writeOk = true ∧
      ∃ r, w.waitResult = some r ∧ r.success = true) := by
  refine ⟨rfl, rfl, ?_, ?_, ?_, ?_⟩
  · intro h
    simp [run_sudo_command_with_stdin, h]
  · cases o with
    | none => simp [run_sudo_command]
    | some r => cases h : r.success <;> simp [run_sudo_command, h]
  · cases o with
    | none => simp [run_user_command]
    | some r => cases h : r.success <;> simp [run_user_command, h]
  · cases hs : w.spawnOk with
    | false => simp [run_sudo_command_with_stdin, hs]
    | true =>
      cases hw : w.writeOk with
      | false => simp [run_sudo_command_with_stdin, hs, hw]
      | true =>
        cases hr : w.waitResult with
        | none => simp [run_sudo_command_with_stdin, hs, hw, hr]
        | some r => cases h : r.success <;>
            simp [run_sudo_command_with_stdin, hs, hw, hr, h]

/-- Witness for C5 amended: a world whose spawn fails makes the stdin
runner report the spawn failure. -/
theorem command_runners_ok_iff_witness :
    run_sudo_command_with_stdin (StdinWorld.mk false true none) =
      Except.error CmdError.spawnFailed :=
  (command_runners_ok_iff none (StdinWorld.mk false true none)).2.2.1 rfl

/-- C3 counterexample: with `USER` set to the empty string and `HOME`
set to an existing directory, identity resolution fails with the
`set_name` error `"Username cannot be empty"`, which is a different
rejection than the absent case and does not name the variable — not
with the variable-naming `get_env_var` (MissingVariable) error. -/
theorem resolve_empty_user_counterexample :
    resolveUserCfg
        (fun v => if v = "USER" then some "" else
          if v = "HOME" then some "/home/alice" else none)
        (fun _ => true) =
      Except.error ResolveError.emptyUserName ∧
    (ResolveError.emptyUserName ≠ ResolveError.missingVar "USER") := by
  constructor
  · rfl
  · decide

/-- C3 amended: if either `USER` or `HOME` is absent, resolution fails
with the `get_env_var` error naming that variable; if either is set but
empty, resolution also fails and no `UserCfg` is produced, but with the
corresponding `UserCfg` setter error ("Username cannot be empty" /
"Home directory cannot be empty"), which does not name the variable —
the empty case is rejected at a different point than the absent case. -/
theorem resolve_missing_or_empty (env : String → Option String)
    (dirExists : String → Bool) :
    (env "USER" = none →
      resolveUserCfg env dirExists = Except.error (ResolveError.missingVar "USER")) ∧
    (∀ u, env "USER" = some u → env "HOME" = none →
      resolveUserCfg env dirExists = Except.error (ResolveError.missingVar "HOME")) ∧
    (∀ h, env "USER" = some "" → env "HOME" = some h →
      resolveUserCfg env dirExists = Except.error ResolveError.emptyUserName) ∧
    (∀ u, env "USER" = some u → u ≠ "" → env "HOME" = some "" →
      resolveUserCfg env dirExists = Except.error ResolveError.emptyHomeDir) := by
  refine ⟨?_, ?_, ?_, ?_⟩
  · intro hu
    simp [resolveUserCfg, get_env_var, hu, Bind.bind, Except.bind]
  · intro u hu hh
    simp [resolveUserCfg, get_env_var, hu, hh, Bind.bind, Except.bind]
  · intro h hu hh
    simp [resolveUserCfg, get_env_var, hu, hh, UserCfg.setName, Bind.bind, Except.bind]
  · intro u hu hne hh
    simp [resolveUserCfg, get_env_var, hu, hh, UserCfg.setName, UserCfg.setHome, hne,
      Bind.bind, Except.bind]

/-- Witness for C3 amended: concrete environment with `USER` present
and nonempty but `HOME` absent fails naming `HOME`. -/
theorem resolve_missing_or_empty_witness :
    resolveUserCfg (fun v => if v = "USER" then some "alice" else none)
        (fun _ => true) =
      Except.error (ResolveError.missingVar "HOME") :=
  (resolve_missing_or_empty (fun v => if v = "USER" then some "alice" else none)
      (fun _ => true)).2.1 "alice" rfl rfl

/-- C4: under the fail-fast policy, in a pipeline `[A, B, C]` where `A`
succeeds and `B` has a nonzero status, exactly `A` and `B` execute (`C`
never runs), the process terminates with the status of `B` as exit code
after printing the failure message, and `validate_task_status` returns
normally iff the status passed to it is 0. -/
theorem fail_fast_pipeline (a b c : String × Int) (ha : a.2 = 0) (hb : b.2 ≠ 0) :
    runFailFast [a, b, c] = ([a.1, b.1], some b.2) ∧
    (∀ s : Int, validate_task_status s = ValidateOutcome.returned ↔ s = 0) := by
  constructor
  · obtain ⟨la, sa⟩ := a
    obtain ⟨lb, sb⟩ := b
    simp only at ha hb
    subst ha
    simp [runFailFast, validate_task_status, hb]
  · intro s
    unfold validate_task_status
    by_cases hs : s = 0 <;> simp [hs]

/-- Witness for C4 on the pipeline `[("A",0), ("B",3), ("C",0)]`. -/
theorem fail_fast_pipeline_witness :
    runFailFast [("A", 0), ("B", 3), ("C", 0)] = (["A", "B"], some 3) :=
  (fail_fast_pipeline ("A", 0) ("B", 3) ("C", 0) rfl (by decide)).1

/-- C6: when the destination exists and the confirmation answer,
trimmed and lowercased, is not `"y"`, both `user_config_setup` and
`zram_swap_setup` return status 0 and leave the filesystem (hence the
destination contents) unchanged, whatever the copy operations would
have done had they run. -/
theorem decline_overwrite_preserves
    (config_path home_dir cfg_name input zinput n : String)
    (copyOk cpOk : Bool)
    (fs zfs : String → Option String)
    (hn : path_file_name config_path = some n)
    (hdest : (fs (path_join home_dir n)).isSome = true)
    (hi : normalizeAnswer input ≠ "y")
    (hzsrc : (zfs "../configs/zram-generator.conf").isSome = true)
    (hzdest : (zfs "/etc/systemd/zram-generator.conf").isSome = true)
    (hzi : normalizeAnswer zinput ≠ "y") :
    user_config_setup config_path home_dir cfg_name input copyOk fs = (0, fs) ∧
    zram_swap_setup zinput cpOk zfs = (0, zfs) := by
  constructor
  · unfold user_config_setup
    rw [hn]
    simp [hdest, hi]
  · unfold zram_swap_setup
    rcases Option.isSome_iff_exists.mp hzsrc with ⟨v, hv⟩
    simp [hv, hzdest, hzi]

/-- Witness for C6 with a one-file filesystem, the answer `"n"`, and
copy operations that would fail had they been attempted. -/
theorem decline_overwrite_preserves_witness :
    user_config_setup "../configs/.zshrc" "/home/u" "zsh" "n" false
        (fun p => if p = "/home/u/.zshrc" then some "old" else some "x") =
      (0, fun p => if p = "/home/u/.zshrc" then some "old" else some "x") ∧
    zram_swap_setup "n" false
        (fun p => if p = "/home/u/.zshrc" then some "old" else some "x") =
      (0, fun p => if p = "/home/u/.zshrc" then some "old" else some "x") :=
  decline_overwrite_preserves "../configs/.zshrc" "/home/u" "zsh" "n" "n" ".zshrc"
    false false
    (fun p => if p = "/home/u/.zshrc" then some "old" else some "x")
    (fun p => if p = "/home/u/.zshrc" then some "old" else some "x")
    (by decide) (by decide) (by decide) (by decide) (by decide) (by decide)

/-- C7 counterexample: with the source readable and the overwrite
answer affirmative but the destination write failing (the `Err` branch
of `std::fs::copy`), the call returns status 1, refuting the
unconditional claim that both calls return status 0. -/
theorem install_user_file_write_failure_counterexample :
    normalizeAnswer "y" = "y" ∧
    (fun p => if p = "/configs/.vimrc" then some "set number" else none)
        "/configs/.vimrc" = some "set number" ∧
    (user_config_setup "/configs/.vimrc" "/home/u" "vim" "y" false
        (fun p => if p = "/configs/.vimrc" then some "set number" else none)).1 = 1 :=
  ⟨by decide, by decide, by decide⟩

/-- C7 amended: calling `user_config_setup` twice on the same source
file with an affirmative overwrite answer both times, provided neither
copy fails (the destination is writable), returns status 0 from each
call and leaves the destination holding exactly the source contents
after each call; a call whose copy fails returns status 1 instead. -/
theorem install_user_file_idempotent
    (config_path home_dir cfg_name i1 i2 content n : String)
    (fs : String → Option String)
    (hn : path_file_name config_path = some n)
    (hsrc : fs config_path = some content)
    (h1 : normalizeAnswer i1 = "y") (h2 : normalizeAnswer i2 = "y") :
    (user_config_setup config_path home_dir cfg_name i1 true fs).1 = 0 ∧
    (user_config_setup config_path home_dir cfg_name i1 true fs).2
        (path_join home_dir n) = some content ∧
    (user_config_setup config_path home_dir cfg_name i2 true
        (user_config_setup config_path home_dir cfg_name i1 true fs).2).1 = 0 ∧
    (user_config_setup config_path home_dir cfg_name i2 true
        (user_config_setup config_path home_dir cfg_name i1 true fs).2).2
        (path_join home_dir n) = some content ∧
    (user_config_setup config_path home_dir cfg_name i1 false fs).1 = 1 := by
  have hfs1 : user_config_setup config_path home_dir cfg_name i1 true fs =
      (0, fun p => if p = path_join home_dir n then some content else fs p) := by
    unfold user_config_setup
    rw [hn]
    simp [h1, hsrc]
  have hsrc2 : (fun p => if p = path_join home_dir n then some content else fs p)
      config_path = some content := by
    by_cases hc : config_path = path_join home_dir n <;> simp [hc, hsrc]
  have hfs2 : user_config_setup config_path home_dir cfg_name i2 true
      (fun p => if p = path_join home_dir n then some content else fs p) =
      (0, fun p => if p = path_join home_dir n then some content else
        (fun q => if q = path_join home_dir n then some content else fs q) p) := by
    unfold user_config_setup
    rw [hn]
    simp only [hsrc2, h2]
    simp
  have hfail : (user_config_setup config_path home_dir cfg_name i1 false fs).1 = 1 := by
    unfold user_config_setup
    rw [hn]
    simp [h1, hsrc]
  rw [hfs1]
  refine ⟨rfl, by simp, ?_, ?_, hfail⟩
  · rw [hfs2]
  · rw [hfs2]
    simp

/-- Witness for C7 on a concrete one-file filesystem with answers
`"y\n"` and `" Y "`, both copies succeeding, plus the failing-copy
status at the same inputs. -/
theorem install_user_file_idempotent_witness :
    (user_config_setup "/configs/.vimrc" "/home/u" "vim" "y\n" true
        (fun p => if p = "/configs/.vimrc" then some "set number" else none)).1 = 0 ∧
    (user_config_setup "/configs/.vimrc" "/home/u" "vim" "y\n" true
        (fun p => if p = "/configs/.vimrc" then some "set number" else none)).2
        (path_join "/home/u" ".vimrc") = some "set number" ∧
    (user_config_setup "/configs/.vimrc" "/home/u" "vim" " Y " true
        (user_config_setup "/configs/.vimrc" "/home/u" "vim" "y\n" true
          (fun p => if p = "/configs/.vimrc" then some "set number" else none)).2).1 = 0 ∧
    (user_config_setup "/configs/.vimrc" "/home/u" "vim" " Y " true
        (user_config_setup "/configs/.vimrc" "/home/u" "vim" "y\n" true
          (fun p => if p = "/configs/.vimrc" then some "set number" else none)).2).2
        (path_join "/home/u" ".vimrc") = some "set number" ∧
    (user_config_setup "/configs/.vimrc" "/home/u" "vim" "y\n" false
        (fun p => if p = "/configs/.vimrc" then some "set number" else none)).1 = 1 :=
  install_user_file_idempotent "/configs/.vimrc" "/home/u" "vim" "y\n" " Y "
    "set number" ".vimrc"
    (fun p => if p = "/configs/.vimrc" then some "set number" else none)
    (by decide) (by decide) (by decide) (by decide)

/-- Helper: the root-config loop, run on a list whose items before
`(src, dest, desc)` all copy successfully and whose copy of that item
fails, stops exactly there. -/
theorem runRootItems_stops_at_failure (cpOk : String → String → Bool)
    (pre post : List (String × String × String)) (src dest desc : String)
    (hpre : ∀ it ∈ pre, cpOk it.1 it.2.1 = true)
    (hfail : cpOk src dest = false) :
    runRootItems cpOk (pre ++ (src, dest, desc) :: post) =
      ⟨1, pre.map (fun it => it.2.2) ++ [desc],
        pre.map (fun it => it.2.1), some desc⟩ := by
  induction pre with
  | nil => simp [runRootItems, copy_item_as_root, hfail]
  | cons it rest ih =>
    obtain ⟨s, d, m⟩ := it
    have hit : cpOk s d = true := by simpa using hpre (s, d, m) (List.mem_cons_self _ _)
    have hrest : ∀ x ∈ rest, cpOk x.1 x.2.1 = true := fun x hx =>
      hpre x (List.mem_cons_of_mem _ hx)
    simp [runRootItems, copy_item_as_root, hit, ih hrest]

/-- C8: if, in the ordered item list of `setup_root_config`, every item
before some item copies successfully and the elevated copy of that
item fails, then the run returns status 1 with that item reported as the
failure, the items after it are never attempted, and exactly the
destinations of the items before it have been written (no rollback). -/
theorem setup_root_config_stops_at_first_failure (home_dir : String)
    (cpOk : String → String → Bool) (pre post : List (String × String × String))
    (src dest desc : String)
    (hsplit : rootItems home_dir = pre ++ (src, dest, desc) :: post)
    (hpre : ∀ it ∈ pre, cpOk it.1 it.2.1 = true)
    (hfail : cpOk src dest = false) :
    setup_root_config home_dir cpOk =
      ⟨1, pre.map (fun it => it.2.2) ++ [desc],
        pre.map (fun it => it.2.1), some desc⟩ := by
  unfold setup_root_config
  rw [hsplit]
  exact runRootItems_stops_at_failure cpOk pre post src dest desc hpre hfail

/-- Witness for C8: with the copy of `~/.zshrc` failing, only the first
two items are attempted, only `/root/.oh-my-zsh` is written, the status
is 1 and the Zsh-config item is reported. -/
theorem setup_root_config_stops_at_first_failure_witness :
    setup_root_config "/home/u" (fun s _ => !(s == "/home/u/.zshrc")) =
      ⟨1, ["Root Oh My Zsh", "Root Zsh config"], ["/root/.oh-my-zsh"],
        some "Root Zsh config"⟩ :=
  setup_root_config_stops_at_first_failure "/home/u"
    (fun s _ => !(s == "/home/u/.zshrc"))
    [("/home/u/.oh-my-zsh", "/root/.oh-my-zsh", "Root Oh My Zsh")]
    [("/home/u/.vimrc", "/root/.vimrc", "Root Vim config")]
    "/home/u/.zshrc" "/root/.zshrc" "Root Zsh config"
    (by decide) (by decide) (by decide)

/-- Helper: `validate_task_statuses` reports failure whenever some task
in the list has a nonzero status. -/
theorem validate_task_statuses_false_of_mem {tasks : List TaskResult}
    {t : TaskResult} (ht : t ∈ tasks) (hs : t.status ≠ 0) :
    (validate_task_statuses tasks).1 = false := by
  unfold validate_task_statuses
  have hmem : t ∈ tasks.filter (fun x => x.status ≠ 0) :=
    List.mem_filter.mpr ⟨ht, by simpa using hs⟩
  have hne : tasks.filter (fun x => x.status ≠ 0) ≠ [] := List.ne_nil_of_mem hmem
  have hempty : (tasks.filter (fun x => x.status ≠ 0)).isEmpty = false := by
    simpa [List.isEmpty_iff] using hne
  simp only [hempty, Bool.false_eq_true, if_false]

/-- C10: in `gnu_linux_default_setup`, a run by a non-root user with
`allow_root = true` that reaches the final validation records the
"Root privilege validation" task with status 1 and reports overall
failure even when every other task succeeds; with `allow_root = false`,
any run that reaches the final validation records that task with
status 0. -/
theorem root_validation_task_recording (w : SetupWorld) (ok : Bool)
    (tasks : List TaskResult) :
    (w.uid ≠ 0 → gnu_linux_default_setup true w = SetupOutcome.completed ok tasks →
      (⟨1, "Root privilege validation"⟩ : TaskResult) ∈ tasks ∧ ok = false) ∧
    (gnu_linux_default_setup false w = SetupOutcome.completed ok tasks →
      (⟨0, "Root privilege validation"⟩ : TaskResult) ∈ tasks) := by
  constructor
  · intro hu hc
    unfold gnu_linux_default_setup at hc
    rw [show validate_root_priviliges w.uid true = PrivResult.returned false by
      simp [validate_root_priviliges, hu]] at hc
    cases hr : resolveUserCfg w.env w.dirExists with
    | error e => rw [hr] at hc; exact absurd hc (by simp)
    | ok cfg =>
      rw [hr] at hc
      rw [SetupOutcome.completed.injEq] at hc
      obtain ⟨hok, htasks⟩ := hc
      subst htasks
      refine ⟨by simp, ?_⟩
      rw [← hok]
      exact validate_task_statuses_false_of_mem
        (t := ⟨1, "Root privilege validation"⟩) (by simp) (by decide)
  · intro hc
    unfold gnu_linux_default_setup at hc
    by_cases hu : w.uid = 0
    · rw [show validate_root_priviliges w.uid false = PrivResult.exited 1 by
        simp [validate_root_priviliges, hu]] at hc
      exact absurd hc (by simp)
    · rw [show validate_root_priviliges w.uid false = PrivResult.returned false by
        simp [validate_root_priviliges, hu]] at hc
      cases hr : resolveUserCfg w.env w.dirExists with
      | error e => rw [hr] at hc; exact absurd hc (by simp)
      | ok cfg =>
        rw [hr] at hc
        rw [SetupOutcome.completed.injEq] at hc
        obtain ⟨hok, htasks⟩ := hc
        subst htasks
        simp

/-- Witness for C10 at the sample world: the non-root run with
`allow_root = true` records the root-validation task with status 1 and
fails overall although every other task succeeded. -/
theorem root_validation_task_recording_witness :
    (⟨1, "Root privilege validation"⟩ : TaskResult) ∈ sampleTasks ∧ false = false :=
  (root_validation_task_recording sampleSetupWorld false sampleTasks).1
    (by decide) (by decide)
